import Mathlib

/-!
Verification of the schema-synthesis engine in `src/mesh/standard/requests.py`.

The Python source composes field descriptions from an external schema library
(`scheme`) into per-operation request/response schemas.  The shallow embedding
below mirrors the source: dictionaries become association lists over `String`
keys (Python dict semantics: overwrite keeps the original position, fresh keys
append), fields become a nested inductive carrying the aspect attributes the
source reads, and fallible code returns `Except`.  Parts of the wider project
that are not shown under `src/` (the `scheme` field types, `mesh.constants`,
`mesh.resource.Resource.filter_schema`, `mesh.util.pluralize`) are modelled
from the spec; each such definition carries a doc comment starting with
`Modelled from the spec:`.
-/

namespace Mesh

/-- Modelled from the spec: a concrete default value carried by a field
(`Integer(default=0)`, `Boolean(default=False)` in the source). -/
inductive DVal where
  | i (n : Int)
  | b (v : Bool)

/-- The `returned` aspect: a space-separated token string or a list of
operation names (the source accepts both, see `is_returned`). -/
inductive ReturnedSpec where
  | str (s : String)
  | list (l : List String)

/-- One entry of an `operators` aspect list: either an operator token or a
literal replacement field used verbatim (`isinstance(operator, Field)` in the
source). -/
inductive OpEntry (F : Type) where
  | token (t : String)
  | literal (f : F)

/-- The `operators` aspect: a space-separated token string or a list of
entries (the source normalizes a string by splitting on spaces). -/
inductive OpSpec (F : Type) where
  | str (s : String)
  | list (entries : List (OpEntry F))

/-- Modelled from the spec: the aspect attributes read by the shown source.
The schema library's fields carry `nonnull`, `required`, `default` and
`notes`; the requests module adds `deferred`, `oncreate`/`onput`/`onupdate`
(tri-state), `readonly`, `operators`, `returned`, `sortable`, and the
`ignore_null` and `is_identifier` flags.  Booleans default to false and the
optional aspects to absent, matching a field declared without them. -/
structure AspectData (F : Type) where
  nonnull : Bool := false
  required : Bool := false
  default : Option DVal := none
  is_identifier : Bool := false
  deferred : Bool := false
  oncreate : Option Bool := none
  onput : Option Bool := none
  onupdate : Option Bool := none
  readonly : Bool := false
  operators : Option (OpSpec F) := none
  returned : Option ReturnedSpec := none
  sortable : Bool := false
  ignore_null : Bool := false
  notes : Option String := none

/-- Modelled from the spec: the value types of the external schema library the
source composes (boolean, integer with minimum, enumeration, sequence with
uniqueness/non-emptiness constraints, structure); `errors` stands for the
opaque `Errors` schema and `text` for a plain scalar field type. -/
inductive FType (F : Type) where
  | boolean
  | integer (minimum : Option Int)
  | enumeration (values : List String)
  | sequence (item : F) (unique : Bool) (nonempty : Bool)
  | struct (entries : List (String × F))
  | errors
  | text

/-- A schema-library field: name, description, aspect attributes and value
type.  Standalone fields may be unnamed (`name = none`). -/
inductive Field where
  | mk (name : Option String) (description : Option String)
       (aspects : AspectData Field) (ftype : FType Field)

def Field.name : Field → Option String
  | .mk n _ _ _ => n

def Field.description : Field → Option String
  | .mk _ d _ _ => d

def Field.aspects : Field → AspectData Field
  | .mk _ _ a _ => a

def Field.ftype : Field → FType Field
  | .mk _ _ _ t => t

def Field.nonnull (f : Field) : Bool := f.aspects.nonnull

def Field.required (f : Field) : Bool := f.aspects.required

def Field.default (f : Field) : Option DVal := f.aspects.default

def Field.is_identifier (f : Field) : Bool := f.aspects.is_identifier

def Field.deferred (f : Field) : Bool := f.aspects.deferred

def Field.oncreate (f : Field) : Option Bool := f.aspects.oncreate

def Field.onput (f : Field) : Option Bool := f.aspects.onput

def Field.onupdate (f : Field) : Option Bool := f.aspects.onupdate

def Field.readonly (f : Field) : Bool := f.aspects.readonly

def Field.operators (f : Field) : Option (OpSpec Field) := f.aspects.operators

def Field.returned (f : Field) : Option ReturnedSpec := f.aspects.returned

def Field.sortable (f : Field) : Bool := f.aspects.sortable

def Field.ignore_null (f : Field) : Bool := f.aspects.ignore_null

/-- Truthiness of the `operators` aspect (`if field.operators:` in the
source): absent, the empty string and the empty list are falsy. -/
def Field.hasOperators (f : Field) : Bool :=
  match f.aspects.operators with
  | none => false
  | some (.str s) => !(s == "")
  | some (.list l) => !l.isEmpty

/-- Override set for `Field.clone`: an outer `some` marks an attribute that is
passed to `clone` (possibly set to an absent value), mirroring Python keyword
arguments. -/
structure CloneArgs where
  name : Option (Option String) := none
  description : Option (Option String) := none
  nonnull : Option Bool := none
  required : Option Bool := none
  default : Option (Option DVal) := none
  notes : Option (Option String) := none
  readonly : Option Bool := none
  deferred : Option Bool := none
  sortable : Option Bool := none
  ignore_null : Option Bool := none
  operators : Option (Option (OpSpec Field)) := none

/-- Modelled from the spec: the schema library's `clone(overrides…)` contract
returns a new field with the selected attributes overridden and everything
else (value type included) copied unchanged. -/
def Field.clone (f : Field) (args : CloneArgs) : Field :=
  match f with
  | .mk nm ds a t =>
    .mk (args.name.getD nm) (args.description.getD ds)
      { a with
        nonnull := args.nonnull.getD a.nonnull
        required := args.required.getD a.required
        default := args.default.getD a.default
        notes := args.notes.getD a.notes
        readonly := args.readonly.getD a.readonly
        deferred := args.deferred.getD a.deferred
        sortable := args.sortable.getD a.sortable
        ignore_null := args.ignore_null.getD a.ignore_null
        operators := args.operators.getD a.operators }
      t

/-- The string key under which a field is stored in a schema dictionary
(`field.name` in the source; all fields stored into schemas are named). -/
def keyOf (f : Field) : String := f.name.getD ""

abbrev Dict := List (String × Field)

/-- Python dictionary lookup on an association list (first binding wins; the
source's dictionaries have unique keys). -/
def dictGet {α : Type} : List (String × α) → String → Option α
  | [], _ => none
  | (k, v) :: rest, key => if key = k then some v else dictGet rest key

/-- Python dictionary assignment: overwriting keeps the binding's position,
a fresh key is appended. -/
def dictSet {α : Type} : List (String × α) → String → α → List (String × α)
  | [], key, v => [(key, v)]
  | (k, w) :: rest, key, v =>
    if key = k then (k, v) :: rest else (k, w) :: dictSet rest key v

/-- Python `str.split(' ')` (used to normalize space-separated aspect
strings). -/
def splitAux : List Char → List Char → List String
  | [], acc => [String.mk acc.reverse]
  | c :: cs, acc =>
    if c = ' ' then String.mk acc.reverse :: splitAux cs []
    else splitAux cs (c :: acc)

def splitSpaces (s : String) : List String := splitAux s.data []

/-- Lexicographic code-point comparison of character lists (how Python
compares strings). -/
def charsLe : List Char → List Char → Bool
  | [], _ => true
  | _ :: _, [] => false
  | c :: cs, d :: ds =>
    if c.toNat < d.toNat then true
    else if d.toNat < c.toNat then false
    else charsLe cs ds

/-- Python string comparison `s <= t`. -/
def strLe (s t : String) : Bool := charsLe s.data t.data

/-- Stable insertion used to model Python `sorted` on string lists. -/
def insSorted (s : String) : List String → List String
  | [] => [s]
  | t :: ts => if strLe s t then s :: t :: ts else t :: insSorted s ts

/-- Python `sorted` on a list of strings (ascending, stable). -/
def sortedTokens (l : List String) : List String := l.foldr insSorted []

def structEntries (f : Field) : Option Dict :=
  match f.ftype with
  | .struct entries => some entries
  | _ => none

def withFtype (f : Field) (t : FType Field) : Field :=
  match f with
  | .mk nm ds a _ => .mk nm ds a t

def setStructEntries (f : Field) (entries : Dict) : Field :=
  match f.ftype with
  | .struct _ => withFtype f (.struct entries)
  | _ => f

/-- The `item` attribute of a sequence field. -/
def itemOf (f : Field) : Option Field :=
  match f.ftype with
  | .sequence item _ _ => some item
  | _ => none

def withItem (f : Field) (item : Field) : Field :=
  match f.ftype with
  | .sequence _ u ne => withFtype f (.sequence item u ne)
  | _ => f

/-- The value set of an enumeration field. -/
def enumValues (f : Field) : List String :=
  match f.ftype with
  | .enumeration values => values
  | _ => []

/-- Modelled from the spec: the schema library's `redefine_enumeration`
(called on the sort enumeration by `add_schema_field`).  Per the spec the
enumeration is a "mutable value set, re-definable": redefinition replaces the
value set with the given tokens. -/
def redefine_enumeration (f : Field) (enumeration : List String) : Field :=
  match f.ftype with
  | .enumeration _ => withFtype f (.enumeration enumeration)
  | _ => f

/-- Modelled from the spec: the schema library's `Boolean` constructor
(name, description, nonnull, default; other aspects at their neutral
defaults). -/
def Boolean (name description : Option String) (nonnull : Bool)
    (default : Option DVal) : Field :=
  .mk name description { nonnull := nonnull, default := default } .boolean

/-- Modelled from the spec: the schema library's `Integer` constructor
(minimum, default, nonnull, description). -/
def Integer (minimum : Option Int) (default : Option DVal) (nonnull : Bool)
    (description : Option String) : Field :=
  .mk none description { nonnull := nonnull, default := default }
    (.integer minimum)

/-- Modelled from the spec: the schema library's `Enumeration` constructor
(value list, nonnull). -/
def Enumeration (values : List String) (nonnull : Bool) : Field :=
  .mk none none { nonnull := nonnull } (.enumeration values)

/-- Modelled from the spec: the schema library's `Sequence` constructor
(item type, name, description, nonnull, unique, nonempty). -/
def Sequence (item : Field) (name description : Option String)
    (nonnull unique nonempty : Bool) : Field :=
  .mk name description { nonnull := nonnull } (.sequence item unique nonempty)

/-- Modelled from the spec: the schema library's `Structure` constructor
(named field map, name, description). -/
def Structure (entries : Dict) (name description : Option String) : Field :=
  .mk name description {} (.struct entries)

/-- Modelled from the spec: the opaque `Errors` schema used for every
`invalid` response. -/
def Errors : Field := .mk (some "errors") none {} .errors

/-- Modelled from the spec: status and method tokens from `mesh.constants`
(not part of the shown source); only their identity matters here. -/
def OK : String := "OK"

def INVALID : String := "INVALID"

def GET : String := "GET"

def POST : String := "POST"

def PUT : String := "PUT"

def DELETE : String := "DELETE"

/-- Modelled from the spec: the reserved returning-field name from
`mesh.constants` (the "well-known returning field name"). -/
def RETURNING : String := "returning"

/-- Modelled from the spec: `mesh.util.pluralize` is an external
display-string helper, only used in request titles; modelled as the simplest
pluralizer. -/
def pluralize (s : String) : String := s ++ "s"

/-- Synchronous failures of the construction code: `KeyError` on a missing
dictionary key, `AttributeError` on a missing attribute (for instance
`insert` on an absent schema or inserting `None`), `TypeError`, and the
returning-support configuration conflict. -/
inductive SchemaError where
  | keyError (key : String)
  | attrError
  | typeError
  | configError (msg : String)

/-- A status code's response: a schema of output fields. -/
structure Response where
  schema : Field

/-- Modelled from the spec: `mesh.request.Request` (not part of the shown
source) as far as the constructors populate it: name, endpoint
(method, path), `specific`/`auto_constructed`/`subject_required` flags, the
nullable input schema and the status-to-response map.  The resource
back-reference the source also stores is omitted (it would make the data
cyclic and no claim reads it). -/
structure Request where
  name : String
  endpoint : String × String
  specific : Bool := false
  auto_constructed : Bool := false
  subject_required : Bool := true
  title : String
  schema : Option Field
  responses : List (String × Response)

/-- Modelled from the spec: the resource as consumed by the shown source: a
name (endpoint slug), display title, the identifying field, the field map and
the constructed request map. -/
structure Resource where
  name : String
  title : String
  id_field : Field
  schema : Dict
  requests : List (String × Request)

/-- Modelled from the spec: the optional per-request declaration object with
the overrides the source reads via `getattr`: `support_returning` (absent
reads as false), `valid_responses` and extra literal `operators`. -/
structure Declaration where
  support_returning : Bool := false
  valid_responses : Option (List String) := none
  operators : Option Dict := none

/-- Modelled from the spec: `Resource.filter_schema` lives in
`mesh/resource.py`, which is not part of the shown source.  Per the spec it
computes the eligible field subset: with `exclusive=False` (the only mode the
shown source uses) no access-rule exclusion applies, and the `readonly` flag
selects whether readonly fields are kept (response filtering keeps them,
mutation-input construction drops them). -/
def Resource.filter_schema (resource : Resource) (readonly : Bool) : Dict :=
  if readonly then resource.schema
  else resource.schema.filter (fun p => !p.2.readonly)

/-- Translation of `clone_field` from the source: the aspect-neutralizing clone used for
query-selection tokens and derived operator fields.  Note that the source
sets `nonnull=True` (not false). -/
def clone_field (field : Field) (name : Option String)
    (description : Option String) : Field :=
  field.clone
    { name := some name, description := some description,
      nonnull := some true, default := some none, required := some false,
      notes := some none, readonly := some false, deferred := some false,
      sortable := some false, ignore_null := some false,
      operators := some none }

namespace OperatorConstructor

/-- The operator-token to description table of `OperatorConstructor`. -/
def operators : List (String × String) :=
  [("equal", "Equals"),
   ("iequal", "Case-insensitive equals."),
   ("not", "Not equal."),
   ("inot", "Case-insensitive not equal."),
   ("prefix", "Prefix search."),
   ("iprefix", "Case-insensitive prefix search."),
   ("suffix", "Suffix search."),
   ("isuffix", "Case-insensitive suffix search."),
   ("contains", "Contains."),
   ("icontains", "Case-insensitive contains."),
   ("gt", "Greater then."),
   ("gte", "Greater then or equal to."),
   ("lt", "Less then."),
   ("lte", "Less then or equal to."),
   ("null", "Is null."),
   ("in", "In given values."),
   ("notin", "Not in given values.")]

def construct_equal_operator (field : Field) (description : String) : Field :=
  clone_field field field.name (some description)

def construct_in_operator (field : Field) (description : String) : Field :=
  Sequence (clone_field field none none) (some (keyOf field ++ "__in"))
    (some description) true false false

def construct_notin_operator (field : Field) (description : String) : Field :=
  Sequence (clone_field field none none) (some (keyOf field ++ "__notin"))
    (some description) true false false

def construct_null_operator (field : Field) (description : String) : Field :=
  Boolean (some (keyOf field ++ "__null")) (some description) true none

/-- Translation of `OperatorConstructor.construct`: expands the field's `operators` aspect
into the caller-supplied mapping.  A string aspect is split on spaces;
literal field entries are used verbatim under their own name; tokens with a
dedicated constructor (`equal`, `in`, `notin`, `null`) dispatch to it, other
known tokens clone the field under `name__token`, unknown tokens are silently
skipped.  (Every call site guards on a truthy `operators` aspect, so the
absent aspect contributes no entries.) -/
def construct (operators : Dict) (field : Field) : Dict :=
  let supported : List (OpEntry Field) :=
    match field.operators with
    | some (.str s) => (splitSpaces s).map OpEntry.token
    | some (.list l) => l
    | none => []
  supported.foldl
    (fun ops entry =>
      match entry with
      | .literal f => dictSet ops (keyOf f) f
      | .token operator =>
        match dictGet OperatorConstructor.operators operator with
        | some description =>
          let operator_field :=
            match operator with
            | "equal" => construct_equal_operator field description
            | "in" => construct_in_operator field description
            | "notin" => construct_notin_operator field description
            | "null" => construct_null_operator field description
            | _ =>
              clone_field field (some (keyOf field ++ "__" ++ operator))
                (some description)
          dictSet ops (keyOf operator_field) operator_field
        | none => ops)
    operators

end OperatorConstructor

/-- Translation of `construct_fields_field`: the de-duplicated sorted enumeration of field
names (extending a previously-built selector when `original` is given). -/
def construct_fields_field (fields : Dict) (original : Option Field) : Field :=
  let tokens : List String :=
    match original with
    | some o => match itemOf o with
      | some it => enumValues it
      | none => []
    | none => []
  let tokens := tokens ++ fields.map Prod.fst
  Sequence (Enumeration (sortedTokens tokens) true) (some "fields")
    (some "The exact fields which should be returned for this query.")
    false true false

/-- Translation of `construct_exclude_field`: sorted enumeration of the non-deferred,
non-identifier field names; yields nothing when the token set is empty. -/
def construct_exclude_field (id_field : Field) (fields : Dict)
    (original : Option Field) : Option Field :=
  let tokens : List String :=
    match original with
    | some o => match itemOf o with
      | some it => enumValues it
      | none => []
    | none => []
  let tokens := fields.foldl
    (fun acc p =>
      if some p.1 != id_field.name && !p.2.deferred then acc ++ [p.1] else acc)
    tokens
  if tokens.isEmpty then none
  else
    some (Sequence (Enumeration (sortedTokens tokens) true) (some "exclude")
      (some "Fields which should not be returned for this query.")
      false false false)

/-- Translation of `construct_include_field`: sorted enumeration of the deferred field
names; yields nothing when the token set is empty. -/
def construct_include_field (fields : Dict) (original : Option Field) :
    Option Field :=
  let tokens : List String :=
    match original with
    | some o => match itemOf o with
      | some it => enumValues it
      | none => []
    | none => []
  let tokens := fields.foldl
    (fun acc p => if p.2.deferred then acc ++ [p.1] else acc) tokens
  if tokens.isEmpty then none
  else
    some (Sequence (Enumeration (sortedTokens tokens) true) (some "include")
      (some "Deferred fields which should be returned for this query.")
      false false false)

/-- Translation of `construct_returning`: a sorted enumeration of all resource field
names. -/
def construct_returning (resource : Resource) : Field :=
  Sequence (Enumeration (sortedTokens (resource.schema.map Prod.fst)) true)
    none none false false false

/-- Insert-or-overwrite step of the source's dictionary-building loops: when
the per-entry rule produces a value it is assigned under the entry's key,
otherwise the entry is skipped. -/
def foldIns (h : String → Field → Option Field) (init : Dict) (l : Dict) :
    Dict :=
  l.foldl
    (fun acc p =>
      match h p.1 p.2 with
      | some v => dictSet acc p.1 v
      | none => acc)
    init

/-- Translation of `filter_schema_for_response`: the response-visible schema — the
identifier is cloned `required=True`, normally-required fields are cloned
`required=False`, everything else passes through unchanged. -/
def filter_schema_for_response (resource : Resource) : Dict :=
  foldIns
    (fun name field =>
      if some name == resource.id_field.name then
        some (field.clone { required := some true })
      else if field.required then
        some (field.clone { required := some false })
      else some field)
    [] (resource.filter_schema true)

/-- Translation of `is_returned`: whether the `returned` aspect names the given request
(the aspect may be a space-separated string or a list; an absent or empty
aspect is falsy). -/
def is_returned (field : Field) (request : String) : Bool :=
  match field.returned with
  | none => false
  | some (.str s) => if s == "" then false else (splitSpaces s).contains request
  | some (.list l) => if l.isEmpty then false else l.contains request

/-- Translation of `is_returning_supported`: reads `support_returning` off the declaration
(absent declaration or attribute reads as false) and raises the
configuration-conflict error when returning is requested but the resource
schema already has a field named `RETURNING`. -/
def is_returning_supported (resource : Resource)
    (declaration : Option Declaration) : Except SchemaError Bool :=
  match declaration with
  | none => .ok false
  | some d =>
    if d.support_returning then
      if (dictGet resource.schema RETURNING).isSome then
        .error (.configError "cannot support returning for this resource")
      else .ok true
    else .ok false

/-- Translation of `construct_query_request`: input schema of selectors, paging, sort and
the merged operator structure; response `{total, resources}` per valid
status code. -/
def construct_query_request (resource : Resource)
    (declaration : Option Declaration) : Request :=
  let fields := filter_schema_for_response resource
  let schema : Dict :=
    [("fields", construct_fields_field fields none),
     ("limit", Integer (some 0) none false
        (some "The maximum number of resources to return for this query.")),
     ("offset", Integer (some 0) (some (.i 0)) false
        (some "The offset into the result set of this query.")),
     ("total", Boolean none
        (some "If true, only return the total for this query.") true
        (some (.b false)))]
  let schema :=
    match construct_include_field fields none with
    | some f => dictSet schema "include" f
    | none => schema
  let schema :=
    match construct_exclude_field resource.id_field fields none with
    | some f => dictSet schema "exclude" f
    | none => schema
  let tokens := fields.foldl
    (fun acc p =>
      if p.2.sortable then acc ++ [p.1, p.1 ++ "+", p.1 ++ "-"] else acc)
    []
  let schema :=
    if tokens.isEmpty then schema
    else
      dictSet schema "sort"
        (Sequence (Enumeration (sortedTokens tokens) true) none
          (some "The sort order for this query.") false false false)
  let operators := fields.foldl
    (fun ops p =>
      if p.2.hasOperators then OperatorConstructor.construct ops p.2 else ops)
    []
  let operators :=
    match declaration with
    | some d =>
      match d.operators with
      | some additions =>
        if additions.isEmpty then operators
        else additions.foldl (fun acc p => dictSet acc p.1 p.2) operators
      | none => operators
    | none => operators
  let schema :=
    if operators.isEmpty then schema
    else
      dictSet schema "query"
        (Structure operators none (some "The query to filter resources by."))
  let response_schema := Structure
    [("total", Integer (some 0) none true
        (some "The total number of resources in the result set for this query.")),
     ("resources", Sequence (Structure fields none none) none none
        true false false)]
    none none
  let valid_responses :=
    match declaration with
    | some d => d.valid_responses.getD [OK]
    | none => [OK]
  let responses := valid_responses.foldl
    (fun acc code => dictSet acc code (⟨response_schema⟩ : Response))
    [(INVALID, ⟨Errors⟩)]
  { name := "query", endpoint := (GET, resource.name),
    auto_constructed := true,
    title := "Querying " ++ pluralize resource.title.toLower,
    schema := some (Structure schema none none),
    responses := responses }

/-- Translation of `construct_get_request`: selector-only input schema, filtered response
schema, success and invalid responses. -/
def construct_get_request (resource : Resource)
    (_declaration : Option Declaration) : Request :=
  let fields := filter_schema_for_response resource
  let schema : Dict := [("fields", construct_fields_field fields none)]
  let schema :=
    match construct_include_field fields none with
    | some f => dictSet schema "include" f
    | none => schema
  let schema :=
    match construct_exclude_field resource.id_field fields none with
    | some f => dictSet schema "exclude" f
    | none => schema
  let response_schema := Structure fields none none
  { name := "get", endpoint := (GET, resource.name ++ "/id"),
    specific := true, auto_constructed := true,
    title := "Getting a specific " ++ resource.title.toLower,
    schema := if schema.isEmpty then none else some (Structure schema none none),
    responses := [(OK, ⟨response_schema⟩), (INVALID, ⟨Errors⟩)] }

/-- Translation of `construct_create_request`: a non-readonly field enters the input unless
`oncreate` is `False`; the identifier enters only when `oncreate` is
literally `True`, as an `ignore_null` clone.  The response carries the
identifier and every field `returned` for create (required), plus — when
returning is supported — every other field as optional. -/
def construct_create_request (resource : Resource)
    (declaration : Option Declaration) : Except SchemaError Request :=
  let resource_schema := foldIns
    (fun _ field =>
      if field.is_identifier then
        (if field.oncreate == some true then
           some (field.clone { ignore_null := some true })
         else none)
      else if field.oncreate != some false then some field
      else none)
    [] (resource.filter_schema false)
  match is_returning_supported resource declaration with
  | .error e => .error e
  | .ok support_returning =>
    let resource_schema :=
      if support_returning then
        dictSet resource_schema RETURNING (construct_returning resource)
      else resource_schema
    let response_schema := foldIns
      (fun _ field =>
        if field.is_identifier || is_returned field "create" then
          some (field.clone { required := some true })
        else if support_returning then
          some (field.clone { required := some false })
        else none)
      [] resource.schema
    .ok { name := "create", endpoint := (POST, resource.name),
          auto_constructed := true,
          title := "Creating a new " ++ resource.title.toLower,
          schema := some (Structure resource_schema (some "resource") none),
          responses :=
            [(OK, ⟨Structure response_schema none none⟩),
             (INVALID, ⟨Errors⟩)] }

/-- Translation of `construct_put_request`: like create but the identifier is excluded
entirely and the gate is `onput`; `specific=True`, `subject_required=False`.
The response rule mirrors create keyed on put. -/
def construct_put_request (resource : Resource)
    (declaration : Option Declaration) : Except SchemaError Request :=
  let resource_schema := foldIns
    (fun _ field =>
      if !field.is_identifier && field.onput != some false then some field
      else none)
    [] (resource.filter_schema false)
  match is_returning_supported resource declaration with
  | .error e => .error e
  | .ok support_returning =>
    let resource_schema :=
      if support_returning then
        dictSet resource_schema RETURNING (construct_returning resource)
      else resource_schema
    let response_schema := foldIns
      (fun _ field =>
        if field.is_identifier || is_returned field "put" then
          some (field.clone { required := some true })
        else if support_returning then
          some (field.clone { required := some false })
        else none)
      [] resource.schema
    .ok { name := "put", endpoint := (PUT, resource.name ++ "/id"),
          specific := true, auto_constructed := true,
          subject_required := false,
          title := "Putting a specific " ++ resource.title.toLower,
          schema := some (Structure resource_schema none none),
          responses :=
            [(OK, ⟨Structure response_schema none none⟩),
             (INVALID, ⟨Errors⟩)] }

/-- Translation of `construct_update_request`: like put but gated on `onupdate`, with every
included required field re-cloned `required=False` (partial-update
semantics), and declaration-controlled valid response codes. -/
def construct_update_request (resource : Resource)
    (declaration : Option Declaration) : Except SchemaError Request :=
  let resource_schema := foldIns
    (fun _ field =>
      if !field.is_identifier && field.onupdate != some false then
        some (if field.required then field.clone { required := some false }
              else field)
      else none)
    [] (resource.filter_schema false)
  match is_returning_supported resource declaration with
  | .error e => .error e
  | .ok support_returning =>
    let resource_schema :=
      if support_returning then
        dictSet resource_schema RETURNING (construct_returning resource)
      else resource_schema
    let response_schema := foldIns
      (fun _ field =>
        if field.is_identifier || is_returned field "update" then
          some (field.clone { required := some true })
        else if support_returning then
          some (field.clone { required := some false })
        else none)
      [] resource.schema
    let valid_responses :=
      match declaration with
      | some d => d.valid_responses.getD [OK]
      | none => [OK]
    let responses := valid_responses.foldl
      (fun acc code =>
        dictSet acc code (⟨Structure response_schema none none⟩ : Response))
      [(INVALID, ⟨Errors⟩)]
    .ok { name := "update", endpoint := (POST, resource.name ++ "/id"),
          specific := true, auto_constructed := true,
          title := "Updating a specific " ++ resource.title.toLower,
          schema := some (Structure resource_schema none none),
          responses := responses }

/-- Lookup of a key inside a request's input-schema structure
(`request.schema.get(key)`; absent schema reads as absent key). -/
def requestSchemaGet (request : Request) (key : String) : Option Field :=
  match request.schema with
  | some s =>
    match structEntries s with
    | some entries => dictGet entries key
    | none => none
  | none => none

/-- Translation of `insert` on the schema library's `Structure`: keyed by the field's name;
an existing key without `overwrite` leaves the structure unchanged
(modelled from the spec — only fresh keys and overwriting insertions occur in
the shown source), a non-structure target is a type error. -/
def structInsert (s : Field) (f : Field) (overwrite : Bool) :
    Except SchemaError Field :=
  match structEntries s with
  | some entries =>
    if (dictGet entries (keyOf f)).isSome && !overwrite then .ok s
    else .ok (setStructEntries s (dictSet entries (keyOf f) f))
  | none => .error .typeError

/-- Translation of `request.schema.insert(field, overwrite)`: inserting `None` (an absent
selector) or inserting into an absent schema raises. -/
def requestSchemaInsert (request : Request) (f : Option Field)
    (overwrite : Bool) : Except SchemaError Request :=
  match f with
  | none => .error .attrError
  | some field =>
    match request.schema with
    | none => .error .attrError
    | some s =>
      match structInsert s field overwrite with
      | .error e => .error e
      | .ok s' => .ok { request with schema := some s' }

/-- Translation of `request.schema.structure[key] = value`: direct assignment of a sub-field
of the input-schema structure. -/
def requestSchemaSet (request : Request) (key : String) (value : Field) :
    Except SchemaError Request :=
  match request.schema with
  | none => .error .attrError
  | some s =>
    match structEntries s with
    | none => .error .attrError
    | some entries =>
      .ok { request with schema := some (setStructEntries s (dictSet entries key value)) }

/-- The selector updates `add_schema_field` applies to both get and query
requests: overwrite `fields` with the re-sorted extension, then extend
`include` (deferred field) or `exclude` (otherwise). -/
def update_selectors (id_field : Field) (request : Request) (field : Field) :
    Except SchemaError Request :=
  match requestSchemaInsert request
      (some (construct_fields_field [(keyOf field, field)]
        (requestSchemaGet request "fields"))) true with
  | .error e => .error e
  | .ok request =>
    if field.deferred then
      requestSchemaInsert request
        (construct_include_field [(keyOf field, field)]
          (requestSchemaGet request "include")) true
    else
      requestSchemaInsert request
        (construct_exclude_field id_field [(keyOf field, field)]
          (requestSchemaGet request "exclude")) true

/-- Translation of `request.responses[OK].schema.insert(field)` of the get branch of
`add_schema_field`: the raw field is inserted into the success response
schema. -/
def insert_response_field (request : Request) (field : Field) :
    Except SchemaError Request :=
  match dictGet request.responses OK with
  | none => .error (.keyError OK)
  | some resp =>
    match structInsert resp.schema field false with
    | .error e => .error e
    | .ok s' =>
      .ok { request with responses := dictSet request.responses OK ⟨s'⟩ }

/-- Translation of the query-branch response insert
`request.responses[OK].schema.structure['resources'].item.insert(field)`:
of the query branch: the raw field is inserted into the bulk item schema. -/
def insert_query_response_field (request : Request) (field : Field) :
    Except SchemaError Request :=
  match dictGet request.responses OK with
  | none => .error (.keyError OK)
  | some resp =>
    match structEntries resp.schema with
    | none => .error .attrError
    | some entries =>
      match dictGet entries "resources" with
      | none => .error (.keyError "resources")
      | some resources =>
        match itemOf resources with
        | none => .error .attrError
        | some item =>
          match structInsert item field false with
          | .error e => .error e
          | .ok item' =>
            .ok { request with
                  responses := dictSet request.responses OK
                    ⟨setStructEntries resp.schema
                      (dictSet entries "resources" (withItem resources item'))⟩ }

/-- The operator step of the query branch: when the field's `operators`
aspect is truthy, every derived operator field is inserted into the existing
`query` sub-structure; the lookup of `query` happens on the first derived
entry, so an aspect deriving nothing touches nothing, and a missing `query`
key is a lookup error. -/
def insert_query_operators (request : Request) (field : Field) :
    Except SchemaError Request :=
  if field.hasOperators then
    let ops := OperatorConstructor.construct [] field
    if ops.isEmpty then .ok request
    else
      match requestSchemaGet request "query" with
      | none => .error (.keyError "query")
      | some qs =>
        match ops.foldl
            (fun (acc : Except SchemaError Field) p =>
              match acc with
              | .error e => .error e
              | .ok q => structInsert q p.2 false)
            (.ok qs) with
        | .error e => .error e
        | .ok qs' => requestSchemaSet request "query" qs'
  else .ok request

/-- The sort step of the query branch: for a sortable field the three tokens
(bare, `+`, `-`) are computed; an existing sort enumeration is redefined to
exactly these tokens, an absent sort sub-schema is created from their sorted
list. -/
def update_query_sort (request : Request) (field : Field) :
    Except SchemaError Request :=
  if field.sortable then
    let tokens := [keyOf field, keyOf field ++ "+", keyOf field ++ "-"]
    match requestSchemaGet request "sort" with
    | some srt =>
      match itemOf srt with
      | some it =>
        requestSchemaSet request "sort"
          (withItem srt (redefine_enumeration it tokens))
      | none => .error .attrError
    | none =>
      requestSchemaSet request "sort"
        (Sequence (Enumeration (sortedTokens tokens) true) none
          (some "The sort order for this query.") false false false)
  else .ok request

/-- The get branch of `add_schema_field`. -/
def add_to_get_request (id_field : Field) (request : Request) (field : Field) :
    Except SchemaError Request :=
  match insert_response_field request field with
  | .error e => .error e
  | .ok request => update_selectors id_field request field

/-- The query branch of `add_schema_field`. -/
def add_to_query_request (id_field : Field) (request : Request)
    (field : Field) : Except SchemaError Request :=
  match insert_query_response_field request field with
  | .error e => .error e
  | .ok request =>
    match update_selectors id_field request field with
    | .error e => .error e
    | .ok request =>
      match insert_query_operators request field with
      | .error e => .error e
      | .ok request => update_query_sort request field

/-- Apply a patch to the named request when the resource has it (the
`if name in resource.requests:` pattern of the source). -/
def modifyRequest (resource : Resource) (key : String)
    (g : Request → Except SchemaError Request) : Except SchemaError Resource :=
  match dictGet resource.requests key with
  | none => .ok resource
  | some req =>
    match g req with
    | .error e => .error e
    | .ok req' =>
      .ok { resource with requests := dictSet resource.requests key req' }

/-- The mutation-request inserts of `add_schema_field` (only reached for a
non-readonly field): the raw field into create/put when the corresponding
aspect is not `False`, and a `required=False` clone into update. -/
def add_to_mutation_requests (resource : Resource) (field : Field) :
    Except SchemaError Resource :=
  match (if field.oncreate != some false then
      modifyRequest resource "create"
        (fun req => requestSchemaInsert req (some field) false)
    else .ok resource) with
  | .error e => .error e
  | .ok resource =>
    match (if field.onupdate != some false then
        modifyRequest resource "update"
          (fun req =>
            requestSchemaInsert req (some (field.clone { required := some false }))
              false)
      else .ok resource) with
    | .error e => .error e
    | .ok resource =>
      if field.onput != some false then
        modifyRequest resource "put"
          (fun req => requestSchemaInsert req (some field) false)
      else .ok resource

/-- Translation of `add_schema_field`: stores the field in the resource schema, patches the
get and query requests (responses, selectors, operators, sort), then — for a
non-readonly field — the create/update/put input schemas. -/
def add_schema_field (resource : Resource) (field : Field) :
    Except SchemaError Resource :=
  let resource :=
    { resource with schema := dictSet resource.schema (keyOf field) field }
  match modifyRequest resource "get"
      (fun req => add_to_get_request resource.id_field req field) with
  | .error e => .error e
  | .ok resource =>
    match modifyRequest resource "query"
        (fun req => add_to_query_request resource.id_field req field) with
    | .error e => .error e
    | .ok resource =>
      if field.readonly then .ok resource
      else add_to_mutation_requests resource field

/-- Boolean success test for construction results. -/
def isOk {α : Type} : Except SchemaError α → Bool
  | .ok _ => true
  | .error _ => false

/-- Boolean test for the returning-support configuration-conflict error. -/
def isConfigError {α : Type} : Except SchemaError α → Bool
  | .error (.configError _) => true
  | _ => false

/-- Boolean test for a lookup error on the given key. -/
def isKeyError {α : Type} (key : String) : Except SchemaError α → Bool
  | .error (.keyError k) => k == key
  | _ => false

/-- The field stored under `n` in a request's success-response schema. -/
def getOkField (rq : Request) (n : String) : Option Field :=
  (dictGet rq.responses OK).bind
    (fun resp => (structEntries resp.schema).bind (fun e => dictGet e n))

/-- The value set of a resource's query-sort enumeration. -/
def sortEnumOf (r : Resource) : Option (List String) :=
  ((dictGet r.requests "query").bind
    (fun rq => requestSchemaGet rq "sort")).bind
    (fun srt => (itemOf srt).map enumValues)

/-- Concrete identifier field used by the test resources. -/
def idF : Field := .mk (some "id") none { is_identifier := true } .text

/-- A required plain field. -/
def nameF : Field := .mk (some "name") none { required := true } .text

/-- A resource with only its identifier field and no requests yet. -/
def widgetBase : Resource :=
  { name := "widget", title := "Widget", id_field := idF,
    schema := [("id", idF)], requests := [] }

/-- The same resource with the required `name` field present from the
start. -/
def widgetFull : Resource :=
  { widgetBase with schema := [("id", idF), ("name", nameF)] }

/-- The identifier-only resource after constructing its get request. -/
def widgetBaseWithGet : Resource :=
  { widgetBase with
    requests := [("get", construct_get_request widgetBase none)] }

/-- A sortable plain field present from the start. -/
def alphaF : Field := .mk (some "alpha") none { sortable := true } .text

/-- A sortable plain field added incrementally. -/
def betaF : Field := .mk (some "beta") none { sortable := true } .text

/-- A resource whose query request is built with one sortable field. -/
def sortResBase : Resource :=
  { name := "item", title := "Item", id_field := idF,
    schema := [("id", idF), ("alpha", alphaF)], requests := [] }

def sortRes : Resource :=
  { sortResBase with
    requests := [("query", construct_query_request sortResBase none)] }

/-- A field whose operators aspect is the token string of C2. -/
def c2f : Field :=
  .mk (some "x") none { operators := some (.str "equal in null") } .text

/-- A field used to exhibit the aspect values of `clone_field`. -/
def c4f : Field :=
  .mk (some "q") none
    { nonnull := false, required := true, default := some (.b true),
      deferred := true, readonly := true,
      operators := some (.str "equal"), sortable := true,
      ignore_null := true }
    .text

/-- A readonly identifier declared creatable (`oncreate=True`). -/
def roIdF : Field :=
  .mk (some "id") none
    { is_identifier := true, readonly := true, oncreate := some true } .text

/-- A resource whose identifier is readonly. -/
def roIdRes : Resource :=
  { name := "gadget", title := "Gadget", id_field := roIdF,
    schema := [("id", roIdF)], requests := [] }

/-- A field whose operators aspect is non-empty but names only an unknown
token. -/
def bogusOpF : Field :=
  .mk (some "oddball") none { operators := some (.str "bogus") } .text

/-- A field with a recognized operator token, added incrementally. -/
def equalOpF : Field :=
  .mk (some "flag") none { operators := some (.str "equal") } .text

/-- A resource whose query request was built with no queryable fields, so
its input schema has no `query` sub-structure. -/
def noQueryResBase : Resource :=
  { name := "thing", title := "Thing", id_field := idF,
    schema := [("id", idF)], requests := [] }

def noQueryRes : Resource :=
  { noQueryResBase with
    requests := [("query", construct_query_request noQueryResBase none)] }

/-- A field literally named like the reserved returning-field name. -/
def retF : Field := .mk (some "returning") none {} .text

/-- A resource whose schema already defines the returning field name. -/
def retRes : Resource :=
  { name := "doc", title := "Doc", id_field := idF,
    schema := [("id", idF), ("returning", retF)], requests := [] }

/-- A readonly field. -/
def secretF : Field := .mk (some "secret") none { readonly := true } .text

/-- A resource carrying a readonly field. -/
def c7res : Resource :=
  { name := "vault", title := "Vault", id_field := idF,
    schema := [("id", idF), ("secret", secretF)], requests := [] }

def c7createReq : Request :=
  (construct_create_request c7res none).toOption.get (by rfl)

def c7addRes : Resource :=
  (add_schema_field widgetBaseWithGet secretF).toOption.get (by rfl)

/-- A resource used to exercise the update constructor. -/
def c8res : Resource :=
  { name := "note", title := "Note", id_field := idF,
    schema := [("id", idF), ("name", nameF)], requests := [] }

def c8req : Request :=
  (construct_update_request c8res none).toOption.get (by rfl)

/-- An identifier declared creatable and not readonly. -/
def okIdF : Field :=
  .mk (some "id") none { is_identifier := true, oncreate := some true } .text

/-- A resource with a creatable identifier and a required plain field. -/
def c5res : Resource :=
  { name := "card", title := "Card", id_field := okIdF,
    schema := [("id", okIdF), ("name", nameF)], requests := [] }

def c5req : Request :=
  (construct_create_request c5res none).toOption.get (by rfl)

/-- The query request of `noQueryRes` (its input schema has no `query`
sub-structure because the resource has no queryable field). -/
def c10qr : Request := construct_query_request noQueryResBase none

/-- The resource state after `add_schema_field` stores `equalOpF` in the
schema (the get branch is a no-op since there is no get request). -/
def c10r1 : Resource :=
  { noQueryRes with
    schema := dictSet noQueryRes.schema (keyOf equalOpF) equalOpF }

/-- The query request after the response-insert and selector steps of the
query branch, just before the operator step fails. -/
def c10qr2 : Request :=
  ((match insert_query_response_field c10qr equalOpF with
    | .error e => .error e
    | .ok q1 =>
      update_selectors c10r1.id_field q1 equalOpF :
    Except SchemaError Request)).toOption.get (by rfl)

/-! Association-list lemmas: Python dictionary lookup against assignment,
filtering and the insert-or-skip folds of the constructors. -/

theorem dictGet_dictSet_self {α : Type} (d : List (String × α)) (k : String)
    (v : α) : dictGet (dictSet d k v) k = some v := by
  induction d with
  | nil => simp [dictSet, dictGet]
  | cons p rest ih =>
    obtain ⟨k0, w⟩ := p
    by_cases h : k = k0
    · subst h
      simp [dictSet, dictGet]
    · simp [dictSet, dictGet, h, ih]

theorem dictGet_dictSet_ne {α : Type} (d : List (String × α)) (k k' : String)
    (v : α) (h : ¬ k' = k) : dictGet (dictSet d k v) k' = dictGet d k' := by
  induction d with
  | nil => simp [dictSet, dictGet, h]
  | cons p rest ih =>
    obtain ⟨k0, w⟩ := p
    by_cases h0 : k = k0
    · subst h0
      simp [dictSet, dictGet, h]
    · by_cases h1 : k' = k0
      · subst h1
        simp [dictSet, dictGet, h0]
      · simp [dictSet, dictGet, h0, h1, ih]

theorem dictGet_dictSet_cases {α : Type} (d : List (String × α))
    (k : String) (v : α) (n : String) (g : α)
    (h : dictGet (dictSet d k v) n = some g) :
    g = v ∨ dictGet d n = some g := by
  induction d with
  | nil =>
    by_cases h1 : n = k
    · simp [dictSet, dictGet, h1] at h
      exact Or.inl h.symm
    · simp [dictSet, dictGet, h1] at h
  | cons p rest ih =>
    obtain ⟨k0, w⟩ := p
    by_cases h0 : k = k0
    · subst h0
      by_cases h1 : n = k
      · simp [dictSet, dictGet, h1] at h
        exact Or.inl h.symm
      · simp [dictSet, dictGet, h1] at h ⊢
        exact Or.inr h
    · by_cases h1 : n = k0
      · simp [dictSet, dictGet, h0, h1] at h ⊢
        exact Or.inr h
      · simp [dictSet, dictGet, h0, h1] at h ⊢
        exact ih h

theorem dictGet_of_not_mem_keys {α : Type} (l : List (String × α)) (n : String)
    (h : n ∉ l.map Prod.fst) : dictGet l n = none := by
  induction l with
  | nil => rfl
  | cons p rest ih =>
    obtain ⟨k, v⟩ := p
    simp only [List.map_cons, List.mem_cons] at h
    push_neg at h
    simp [dictGet, h.1, ih h.2]

theorem dictGet_filter_of_none {α : Type} (l : List (String × α))
    (p : String × α → Bool) (n : String) (h : dictGet l n = none) :
    dictGet (l.filter p) n = none := by
  induction l with
  | nil => rfl
  | cons q rest ih =>
    obtain ⟨k, v⟩ := q
    by_cases h1 : n = k
    · subst h1
      simp [dictGet] at h
    · simp only [dictGet, if_neg h1] at h
      rw [List.filter_cons]
      by_cases h2 : p (k, v)
      · simp [h2, dictGet, h1, ih h]
      · simp [h2, ih h]

theorem dictGet_filter (l : Dict) (p : String × Field → Bool) (n : String)
    (f : Field) (hnd : (l.map Prod.fst).Nodup) (hf : dictGet l n = some f) :
    dictGet (l.filter p) n = if p (n, f) then some f else none := by
  induction l with
  | nil => simp [dictGet] at hf
  | cons q rest ih =>
    obtain ⟨k, g⟩ := q
    rw [List.map_cons, List.nodup_cons] at hnd
    by_cases h1 : n = k
    · subst h1
      simp only [dictGet, if_pos rfl] at hf
      obtain rfl : g = f := by injection hf
      have hrest : dictGet rest n = none :=
        dictGet_of_not_mem_keys rest n hnd.1
      rw [List.filter_cons]
      by_cases h2 : p (n, g)
      · simp [h2, dictGet]
      · simp [h2, dictGet_filter_of_none rest p n hrest]
    · simp only [dictGet, if_neg h1] at hf
      rw [List.filter_cons]
      by_cases h2 : p (k, g)
      · simp [h2, dictGet, h1, ih hnd.2 hf]
      · simp [h2, ih hnd.2 hf]

theorem foldIns_cons (h : String → Field → Option Field) (init : Dict)
    (k : String) (f : Field) (rest : Dict) :
    foldIns h init ((k, f) :: rest) =
      foldIns h
        (match h k f with
         | some v => dictSet init k v
         | none => init)
        rest := rfl

theorem foldIns_get_absent (h : String → Field → Option Field) (l : Dict)
    (n : String) (hn : dictGet l n = none) :
    ∀ init : Dict, dictGet (foldIns h init l) n = dictGet init n := by
  induction l with
  | nil => intro init; rfl
  | cons p rest ih =>
    intro init
    obtain ⟨k, f⟩ := p
    by_cases h1 : n = k
    · subst h1
      simp [dictGet] at hn
    · simp only [dictGet, if_neg h1] at hn
      rw [foldIns_cons]
      rw [ih hn]
      cases hv : h k f with
      | some v => simp [hv, dictGet_dictSet_ne init k n v h1]
      | none => simp [hv]

theorem foldIns_get_some (h : String → Field → Option Field) (l : Dict)
    (n : String) (f : Field) (v : Field)
    (hnd : (l.map Prod.fst).Nodup) (hf : dictGet l n = some f)
    (hv : h n f = some v) :
    ∀ init : Dict, dictGet (foldIns h init l) n = some v := by
  induction l with
  | nil => simp [dictGet] at hf
  | cons p rest ih =>
    intro init
    obtain ⟨k, g⟩ := p
    rw [List.map_cons, List.nodup_cons] at hnd
    by_cases h1 : n = k
    · subst h1
      simp only [dictGet, if_pos rfl] at hf
      obtain rfl : g = f := by injection hf
      have hrest : dictGet rest n = none :=
        dictGet_of_not_mem_keys rest n hnd.1
      rw [foldIns_cons, foldIns_get_absent h rest n hrest, hv]
      exact dictGet_dictSet_self init n v
    · simp only [dictGet, if_neg h1] at hf
      rw [foldIns_cons]
      exact ih hnd.2 hf _

theorem foldIns_get_none (h : String → Field → Option Field) (l : Dict)
    (n : String) (f : Field)
    (hnd : (l.map Prod.fst).Nodup) (hf : dictGet l n = some f)
    (hv : h n f = none) :
    ∀ init : Dict, dictGet (foldIns h init l) n = dictGet init n := by
  induction l with
  | nil => simp [dictGet] at hf
  | cons p rest ih =>
    intro init
    obtain ⟨k, g⟩ := p
    rw [List.map_cons, List.nodup_cons] at hnd
    by_cases h1 : n = k
    · subst h1
      simp only [dictGet, if_pos rfl] at hf
      obtain rfl : g = f := by injection hf
      have hrest : dictGet rest n = none :=
        dictGet_of_not_mem_keys rest n hnd.1
      rw [foldIns_cons, foldIns_get_absent h rest n hrest, hv]
    · simp only [dictGet, if_neg h1] at hf
      rw [foldIns_cons]
      rw [ih hnd.2 hf]
      cases hkg : h k g with
      | some w => simp [dictGet_dictSet_ne init k n w h1]
      | none => rfl

theorem foldIns_values {Q : Field → Prop} (h : String → Field → Option Field)
    (l : Dict)
    (hstep : ∀ n f v, h n f = some v → Q v) :
    ∀ init : Dict, (∀ n g, dictGet init n = some g → Q g) →
      ∀ n g, dictGet (foldIns h init l) n = some g → Q g := by
  induction l with
  | nil => intro init hinit n g hg; exact hinit n g hg
  | cons p rest ih =>
    intro init hinit n g hg
    obtain ⟨k, f⟩ := p
    rw [foldIns_cons] at hg
    refine ih _ ?_ n g hg
    intro m w hw
    cases hkf : h k f with
    | some v =>
      rw [hkf] at hw
      rcases dictGet_dictSet_cases init k v m w hw with rfl | hmem
      · exact hstep k f w hkf
      · exact hinit m w hmem
    | none =>
      rw [hkf] at hw
      exact hinit m w hw

/-! String lemmas for distinguishing derived operator names. -/

theorem append_ne_self (s t : String) (h : t.length ≠ 0) : s ++ t ≠ s := by
  intro he
  apply h
  have h2 := congrArg String.length he
  rw [String.length_append] at h2
  omega

theorem append_ne_append (s : String) (t u : String)
    (h : t.length ≠ u.length) : s ++ t ≠ s ++ u := by
  intro he
  apply h
  have h2 := congrArg String.length he
  rw [String.length_append, String.length_append] at h2
  omega

/-! Structure and request-patch lemmas. -/

theorem structEntries_setStructEntries (s : Field) (e e' : Dict)
    (h : structEntries s = some e) :
    structEntries (setStructEntries s e') = some e' := by
  obtain ⟨nm, ds, a, t⟩ := s
  cases t <;> simp_all [structEntries, setStructEntries, withFtype, Field.ftype]

theorem structInsert_entries (s f : Field) (ow : Bool) (s' : Field) (e : Dict)
    (hs : structEntries s = some e) (h : structInsert s f ow = .ok s') :
    structEntries s' = some e ∨
      structEntries s' = some (dictSet e (keyOf f) f) := by
  simp only [structInsert.eq_def, hs] at h
  split at h
  · injection h with h
    subst h
    exact Or.inl hs
  · injection h with h
    subst h
    exact Or.inr (structEntries_setStructEntries s e _ hs)

theorem requestSchemaInsert_get_other (request : Request) (g : Field)
    (ow : Bool) (request' : Request) (k : String)
    (h : requestSchemaInsert request (some g) ow = .ok request')
    (hk : ¬ k = keyOf g) :
    requestSchemaGet request' k = requestSchemaGet request k := by
  simp only [requestSchemaInsert.eq_def] at h
  cases hs : request.schema with
  | none => simp only [hs] at h; cases h
  | some s =>
    simp only [hs] at h
    cases hins : structInsert s g ow with
    | error e => simp only [hins] at h; cases h
    | ok s' =>
      simp only [hins] at h
      injection h with h
      subst h
      cases he : structEntries s with
      | none => simp only [structInsert.eq_def, he] at hins; cases hins
      | some e =>
        rcases structInsert_entries s g ow s' e he hins with h2 | h2 <;>
          simp [requestSchemaGet, hs, he, h2,
            dictGet_dictSet_ne e (keyOf g) k g hk]

theorem requestSchemaInsert_responses (request : Request) (g : Option Field)
    (ow : Bool) (request' : Request)
    (h : requestSchemaInsert request g ow = .ok request') :
    request'.responses = request.responses := by
  simp only [requestSchemaInsert.eq_def] at h
  cases g with
  | none => cases h
  | some f =>
    cases hs : request.schema with
    | none => simp only [hs] at h; cases h
    | some s =>
      simp only [hs] at h
      cases hins : structInsert s f ow with
      | error e => simp only [hins] at h; cases h
      | ok s' =>
        simp only [hins] at h
        injection h with h
        subst h
        rfl

theorem construct_include_field_name (fields : Dict) (original : Option Field)
    (fld : Field) (h : construct_include_field fields original = some fld) :
    keyOf fld = "include" := by
  simp only [construct_include_field.eq_def] at h
  split at h
  · simp at h
  · injection h with h
    rw [← h]
    rfl

theorem construct_exclude_field_name (id_field : Field) (fields : Dict)
    (original : Option Field) (fld : Field)
    (h : construct_exclude_field id_field fields original = some fld) :
    keyOf fld = "exclude" := by
  simp only [construct_exclude_field.eq_def] at h
  split at h
  · simp at h
  · injection h with h
    rw [← h]
    rfl

theorem update_selectors_get_other (id_field : Field) (request : Request)
    (field : Field) (request' : Request) (k : String)
    (h : update_selectors id_field request field = .ok request')
    (h1 : ¬ k = "fields") (h2 : ¬ k = "include") (h3 : ¬ k = "exclude") :
    requestSchemaGet request' k = requestSchemaGet request k := by
  simp only [update_selectors.eq_def] at h
  cases hins : requestSchemaInsert request
      (some (construct_fields_field [(keyOf field, field)]
        (requestSchemaGet request "fields"))) true with
  | error e => simp only [hins] at h; cases h
  | ok req1 =>
    simp only [hins] at h
    have hstep1 : requestSchemaGet req1 k = requestSchemaGet request k :=
      requestSchemaInsert_get_other request _ true req1 k hins h1
    by_cases hdef : field.deferred = true
    · rw [if_pos hdef] at h
      cases hinc : construct_include_field [(keyOf field, field)]
          (requestSchemaGet req1 "include") with
      | none =>
        rw [hinc] at h
        simp [requestSchemaInsert.eq_def] at h
      | some fld =>
        rw [hinc] at h
        have hn : keyOf fld = "include" :=
          construct_include_field_name _ _ _ hinc
        rw [requestSchemaInsert_get_other req1 fld true request' k h
          (by rw [hn]; exact h2), hstep1]
    · rw [if_neg hdef] at h
      cases hexc : construct_exclude_field id_field [(keyOf field, field)]
          (requestSchemaGet req1 "exclude") with
      | none =>
        rw [hexc] at h
        simp [requestSchemaInsert.eq_def] at h
      | some fld =>
        rw [hexc] at h
        have hn : keyOf fld = "exclude" :=
          construct_exclude_field_name _ _ _ _ hexc
        rw [requestSchemaInsert_get_other req1 fld true request' k h
          (by rw [hn]; exact h3), hstep1]

theorem insert_query_response_field_schema (request : Request) (field : Field)
    (request' : Request)
    (h : insert_query_response_field request field = .ok request') :
    request'.schema = request.schema := by
  simp only [insert_query_response_field.eq_def] at h
  cases hr : dictGet request.responses OK with
  | none => simp only [hr] at h; cases h
  | some resp =>
    simp only [hr] at h
    cases he : structEntries resp.schema with
    | none => simp only [he] at h; cases h
    | some entries =>
      simp only [he] at h
      cases hres : dictGet entries "resources" with
      | none => simp only [hres] at h; cases h
      | some resources =>
        simp only [hres] at h
        cases hit : itemOf resources with
        | none => simp only [hit] at h; cases h
        | some item =>
          simp only [hit] at h
          cases hins : structInsert item field false with
          | error e => simp only [hins] at h; cases h
          | ok item' =>
            simp only [hins] at h
            injection h with h
            subst h
            rfl

theorem modifyRequest_get_other (r : Resource) (key : String)
    (g : Request → Except SchemaError Request) (r' : Resource)
    (h : modifyRequest r key g = .ok r') (k : String) (hk : ¬ k = key) :
    dictGet r'.requests k = dictGet r.requests k := by
  simp only [modifyRequest.eq_def] at h
  cases hq : dictGet r.requests key with
  | none =>
    simp only [hq] at h
    injection h with h
    subst h
    rfl
  | some req =>
    simp only [hq] at h
    cases hg : g req with
    | error e => simp only [hg] at h; cases h
    | ok req' =>
      simp only [hg] at h
      injection h with h
      subst h
      exact dictGet_dictSet_ne r.requests key k req' hk

theorem modifyRequest_id_field (r : Resource) (key : String)
    (g : Request → Except SchemaError Request) (r' : Resource)
    (h : modifyRequest r key g = .ok r') : r'.id_field = r.id_field := by
  simp only [modifyRequest.eq_def] at h
  cases hq : dictGet r.requests key with
  | none =>
    simp only [hq] at h
    injection h with h
    subst h
    rfl
  | some req =>
    simp only [hq] at h
    cases hg : g req with
    | error e => simp only [hg] at h; cases h
    | ok req' =>
      simp only [hg] at h
      injection h with h
      subst h
      rfl

theorem modifyRequest_get_self (r : Resource) (key : String)
    (g : Request → Except SchemaError Request) (r' : Resource)
    (h : modifyRequest r key g = .ok r') (req : Request)
    (hq : dictGet r.requests key = some req) :
    ∃ req', g req = .ok req' ∧ dictGet r'.requests key = some req' := by
  simp only [modifyRequest.eq_def, hq] at h
  cases hg : g req with
  | error e => simp only [hg] at h; cases h
  | ok req' =>
    simp only [hg] at h
    injection h with h
    subst h
    exact ⟨req', rfl, dictGet_dictSet_self r.requests key req'⟩

/-! Helper lemmas about clones, the returning gate and the response/input
filters. -/

theorem clone_required (f : Field) (args : CloneArgs) (b : Bool)
    (h : args.required = some b) : (f.clone args).required = b := by
  obtain ⟨nm, ds, a, t⟩ := f
  simp [Field.clone, Field.required, Field.aspects, h]

theorem filter_schema_true_eq (r : Resource) :
    r.filter_schema true = r.schema := rfl

theorem filter_schema_false_eq (r : Resource) :
    r.filter_schema false = r.schema.filter (fun p => !p.2.readonly) := rfl

theorem filter_schema_false_nodup (r : Resource)
    (hnd : (r.schema.map Prod.fst).Nodup) :
    ((r.filter_schema false).map Prod.fst).Nodup := by
  rw [filter_schema_false_eq]
  exact hnd.sublist ((List.filter_sublist r.schema).map Prod.fst)

theorem dictGet_filter_schema_false_drop (r : Resource) (n : String)
    (f : Field) (hnd : (r.schema.map Prod.fst).Nodup)
    (hf : dictGet r.schema n = some f) (hro : f.readonly = true) :
    dictGet (r.filter_schema false) n = none := by
  rw [filter_schema_false_eq,
    dictGet_filter r.schema (fun p => !p.2.readonly) n f hnd hf]
  simp [hro]

theorem dictGet_filter_schema_false_keep (r : Resource) (n : String)
    (f : Field) (hnd : (r.schema.map Prod.fst).Nodup)
    (hf : dictGet r.schema n = some f) (hro : f.readonly = false) :
    dictGet (r.filter_schema false) n = some f := by
  rw [filter_schema_false_eq,
    dictGet_filter r.schema (fun p => !p.2.readonly) n f hnd hf]
  simp [hro]

theorem is_returning_supported_ok_true (r : Resource)
    (d : Option Declaration)
    (h : is_returning_supported r d = .ok true) :
    dictGet r.schema RETURNING = none := by
  cases d with
  | none =>
    simp only [is_returning_supported] at h
    injection h with h
    cases h
  | some dd =>
    simp only [is_returning_supported] at h
    by_cases hs : dd.support_returning = true
    · rw [if_pos hs] at h
      by_cases hr : (dictGet r.schema RETURNING).isSome = true
      · rw [if_pos hr] at h
        cases h
      · exact Option.not_isSome_iff_eq_none.mp hr
    · rw [if_neg hs] at h
      injection h with h
      cases h

theorem foldIns_filter_readonly_none (r : Resource)
    (h : String → Field → Option Field) (n : String) (f : Field)
    (hnd : (r.schema.map Prod.fst).Nodup)
    (hf : dictGet r.schema n = some f) (hro : f.readonly = true) :
    dictGet (foldIns h [] (r.filter_schema false)) n = none := by
  rw [foldIns_get_absent h (r.filter_schema false) n
    (dictGet_filter_schema_false_drop r n f hnd hf hro) []]
  rfl

theorem readonly_input_lookup_none (r : Resource) (d : Option Declaration)
    (hfun : String → Field → Option Field) (n : String) (f : Field)
    (support : Bool)
    (hnd : (r.schema.map Prod.fst).Nodup)
    (hf : dictGet r.schema n = some f) (hro : f.readonly = true)
    (hsup : is_returning_supported r d = .ok support) :
    dictGet
      (if support = true then
        dictSet (foldIns hfun [] (r.filter_schema false)) RETURNING
          (construct_returning r)
      else foldIns hfun [] (r.filter_schema false)) n = none := by
  have hbase := foldIns_filter_readonly_none r hfun n f hnd hf hro
  cases support with
  | false => simpa using hbase
  | true =>
    have hne : ¬ n = RETURNING := by
      intro he
      rw [he, is_returning_supported_ok_true r d hsup] at hf
      cases hf
    simpa [dictGet_dictSet_ne _ RETURNING n _ hne] using hbase

theorem modifyRequest_cases (r : Resource) (key : String)
    (g : Request → Except SchemaError Request) (r' : Resource)
    (h : modifyRequest r key g = .ok r') :
    r' = r ∨
      ∃ req req', dictGet r.requests key = some req ∧ g req = .ok req' ∧
        dictGet r'.requests key = some req' ∧
        ∀ k, ¬ k = key → dictGet r'.requests k = dictGet r.requests k := by
  simp only [modifyRequest.eq_def] at h
  cases hq : dictGet r.requests key with
  | none =>
    simp only [hq] at h
    injection h with h
    exact Or.inl h.symm
  | some req =>
    simp only [hq] at h
    cases hg : g req with
    | error e => simp only [hg] at h; cases h
    | ok req' =>
      simp only [hg] at h
      injection h with h
      subst h
      exact Or.inr ⟨req, req', rfl, hg, dictGet_dictSet_self _ _ _,
        fun k hk => dictGet_dictSet_ne _ _ _ _ hk⟩

theorem requestSchemaInsert_values {Q : Field → Prop} (rq : Request)
    (g : Field) (ow : Bool) (rq' : Request)
    (h : requestSchemaInsert rq (some g) ow = .ok rq') (hQ : Q g)
    (hall : ∀ n v, requestSchemaGet rq n = some v → Q v) :
    ∀ n v, requestSchemaGet rq' n = some v → Q v := by
  intro n v hv
  simp only [requestSchemaInsert.eq_def] at h
  cases hs : rq.schema with
  | none => simp only [hs] at h; cases h
  | some s =>
    simp only [hs] at h
    cases hins : structInsert s g ow with
    | error e => simp only [hins] at h; cases h
    | ok s' =>
      simp only [hins] at h
      injection h with h
      subst h
      cases he : structEntries s with
      | none => simp only [structInsert.eq_def, he] at hins; cases hins
      | some e =>
        simp only [requestSchemaGet] at hv
        rcases structInsert_entries s g ow s' e he hins with h2 | h2
        · rw [h2] at hv
          apply hall n v
          simp only [requestSchemaGet, hs, he]
          exact hv
        · rw [h2] at hv
          rcases dictGet_dictSet_cases e (keyOf g) g n v hv with rfl | hmem
          · exact hQ
          · apply hall n v
            simp only [requestSchemaGet, hs, he]
            exact hmem

theorem update_input_fold_required (r : Resource) (support : Bool)
    (n : String) (g : Field)
    (hg : dictGet
      (if support = true then
        dictSet
          (foldIns
            (fun _ field =>
              if !field.is_identifier && field.onupdate != some false then
                some (if field.required then
                  field.clone { required := some false }
                else field)
              else none)
            [] (r.filter_schema false)) RETURNING (construct_returning r)
      else
        foldIns
          (fun _ field =>
            if !field.is_identifier && field.onupdate != some false then
              some (if field.required then
                field.clone { required := some false }
              else field)
            else none)
          [] (r.filter_schema false)) n = some g) :
    g.required = false := by
  have hstep : ∀ (m : String) (f0 v0 : Field),
      (if !f0.is_identifier && f0.onupdate != some false then
        some (if f0.required then f0.clone { required := some false } else f0)
      else none) = some v0 → v0.required = false := by
    intro m f0 v0 hv0
    split at hv0
    · injection hv0 with hv0
      subst hv0
      split
      · exact clone_required f0 _ false rfl
      · rename_i hx
        cases hxx : f0.required with
        | false => rfl
        | true => exact absurd hxx hx
    · cases hv0
  cases support with
  | false =>
    rw [if_neg (by simp)] at hg
    exact foldIns_values _ (r.filter_schema false) hstep []
      (by intro a b hb; cases hb) n g hg
  | true =>
    rw [if_pos rfl] at hg
    rcases dictGet_dictSet_cases _ RETURNING (construct_returning r) n g hg
      with rfl | hmem
    · rfl
    · exact foldIns_values _ (r.filter_schema false) hstep []
        (by intro a b hb; cases hb) n g hmem

theorem add_to_mutation_requests_update (r : Resource) (f : Field)
    (r' : Resource) (h : add_to_mutation_requests r f = .ok r') :
    dictGet r'.requests "update" = dictGet r.requests "update" ∨
      ∃ rq rq', dictGet r.requests "update" = some rq ∧
        requestSchemaInsert rq (some (f.clone { required := some false }))
          false = .ok rq' ∧
        dictGet r'.requests "update" = some rq' := by
  simp only [add_to_mutation_requests.eq_def] at h
  cases hA : (if f.oncreate != some false then
      modifyRequest r "create"
        (fun req => requestSchemaInsert req (some f) false)
    else .ok r) with
  | error e => simp only [hA] at h; cases h
  | ok rA =>
    simp only [hA] at h
    have hAupd : dictGet rA.requests "update" = dictGet r.requests "update" := by
      by_cases hc : (f.oncreate != some false) = true
      · rw [if_pos hc] at hA
        rcases modifyRequest_cases r "create" _ rA hA with rfl | ⟨q, q', _, _, _, hother⟩
        · rfl
        · exact hother "update" (by decide)
      · rw [if_neg hc] at hA
        injection hA with hA
        subst hA
        rfl
    cases hB : (if f.onupdate != some false then
        modifyRequest rA "update"
          (fun req =>
            requestSchemaInsert req
              (some (f.clone { required := some false })) false)
      else .ok rA) with
    | error e => simp only [hB] at h; cases h
    | ok rB =>
      simp only [hB] at h
      have hCupd : dictGet r'.requests "update" =
          dictGet rB.requests "update" := by
        by_cases hc : (f.onput != some false) = true
        · rw [if_pos hc] at h
          rcases modifyRequest_cases rB "put" _ r' h with rfl | ⟨q, q', _, _, _, hother⟩
          · rfl
          · exact hother "update" (by decide)
        · rw [if_neg hc] at h
          injection h with h
          subst h
          rfl
      by_cases hc : (f.onupdate != some false) = true
      · rw [if_pos hc] at hB
        rcases modifyRequest_cases rA "update" _ rB hB
          with rfl | ⟨q, q', hq, hgreq, hget', hother⟩
        · exact Or.inl (by rw [hCupd, hAupd])
        · refine Or.inr ⟨q, q', ?_, hgreq, ?_⟩
          · rw [← hAupd]
            exact hq
          · rw [hCupd]
            exact hget'
      · rw [if_neg hc] at hB
        injection hB with hB
        subst hB
        exact Or.inl (by rw [hCupd, hAupd])

theorem requestSchemaGet_congr (rq rq' : Request) (h : rq'.schema = rq.schema)
    (k : String) : requestSchemaGet rq' k = requestSchemaGet rq k := by
  simp only [requestSchemaGet, h]

theorem input_lookup_through_returning (r : Resource) (base : Dict)
    (support : Bool) (n : String)
    (hne : support = true → ¬ n = RETURNING) :
    dictGet
      (if support = true then
        dictSet base RETURNING (construct_returning r)
      else base) n = dictGet base n := by
  cases support with
  | false => simp
  | true => simp [dictGet_dictSet_ne base RETURNING n _ (hne rfl)]

/-! The claim theorems. -/

/-- C1: constructing a resource's standard requests from its full schema is
claimed to agree (as sets of name-to-field entries) with constructing from
none of the fields and applying `add_schema_field` per field.  The code
violates this: with the required field `name` present from the start, the get
request's success-response schema carries `name` as a `required=False` clone
(`filter_schema_for_response`), while the incremental path
(`add_schema_field`) inserts the raw field, leaving `required=True` — so the
two paths produce different response schemas at the same input. -/
theorem C1_incremental_divergence :
    (getOkField (construct_get_request widgetFull none) "name").map
        Field.required = some false ∧
      ((add_schema_field widgetBaseWithGet nameF).toOption.bind
        (fun r => (dictGet r.requests "get").bind
          (fun rq => getOkField rq "name"))).map Field.required = some true ∧
      isOk (add_schema_field widgetBaseWithGet nameF) = true :=
  ⟨rfl, rfl, rfl⟩

/-- C3: the claim says `add_schema_field` redefines an existing sort
enumeration to the recomputed full token set over all sortable fields.  The
code computes the three tokens of the newly added field only and passes just
those to the redefinition: after adding sortable `beta` to a resource whose
query request already sorts by `alpha`, the sort enumeration holds exactly
beta's tokens and the alpha tokens are discarded. -/
theorem C3_sort_redefinition_divergence :
    sortEnumOf sortRes = some ["alpha", "alpha+", "alpha-"] ∧
      (add_schema_field sortRes betaF).toOption.bind sortEnumOf =
        some ["beta", "beta+", "beta-"] ∧
      (add_schema_field sortRes betaF).toOption.bind sortEnumOf ≠
        some ["alpha", "alpha+", "alpha-", "beta", "beta+", "beta-"] :=
  ⟨rfl, rfl, by decide⟩

/-- C2 counterexample: the claim types the derived `n__in` and `n__null`
entries as required; the source passes only `nonnull=True` to their
constructors, so their `required` attribute stays at the schema library's
false default. -/
theorem C2_operator_required_counterexample :
    (dictGet (OperatorConstructor.construct [] c2f) "x__in").map
        Field.required = some false ∧
      (dictGet (OperatorConstructor.construct [] c2f) "x__null").map
        Field.required = some false ∧
      ¬ ((dictGet (OperatorConstructor.construct [] c2f) "x__in").map
          Field.required = some true) :=
  ⟨rfl, rfl, by decide⟩

/-- C4 counterexample: the claim says the aspect-neutralizing clone is "not
nonnull"; `clone_field` passes `nonnull=True`, so the clone of a
`nonnull=False` field has `nonnull=true`. -/
theorem C4_clone_nonnull_counterexample :
    (clone_field c4f none none).nonnull = true ∧
      ¬ ((clone_field c4f none none).nonnull = false) :=
  ⟨rfl, by decide⟩

/-- C4 amended: every field produced by `clone_field` has `nonnull` set to
true (not false as claimed) and the remaining behavioral aspects reset to
neutral — no default, not required, not readonly, not deferred, not sortable,
`ignore_null` cleared, operators forced to none — so that its `operators`
aspect is falsy and operator derivation on a derived field produces no
further derived fields. -/
theorem C4_clone_neutralizes_aspects (f : Field) (nm ds : Option String) :
    (clone_field f nm ds).nonnull = true ∧
      (clone_field f nm ds).default = none ∧
      (clone_field f nm ds).required = false ∧
      (clone_field f nm ds).readonly = false ∧
      (clone_field f nm ds).deferred = false ∧
      (clone_field f nm ds).sortable = false ∧
      (clone_field f nm ds).ignore_null = false ∧
      (clone_field f nm ds).operators = none ∧
      (clone_field f nm ds).hasOperators = false ∧
      OperatorConstructor.construct [] (clone_field f nm ds) = [] := by
  obtain ⟨nm0, ds0, a, t⟩ := f
  exact ⟨rfl, rfl, rfl, rfl, rfl, rfl, rfl, rfl, rfl, rfl⟩

/-- C5 counterexample: the claim's "if and only if the identifier's oncreate
aspect is literally True" fails for a readonly identifier: with
`oncreate=True` but `readonly=True`, `filter_schema(readonly=False)` drops
the identifier before the oncreate test, so the create input schema does not
contain it. -/
theorem C5_readonly_identifier_counterexample :
    roIdF.is_identifier = true ∧ roIdF.oncreate = some true ∧
      (construct_create_request roIdRes none).toOption.bind
        (fun req => requestSchemaGet req "id") = none :=
  ⟨rfl, rfl, rfl⟩

/-- C10 counterexample: the claim predicts a lookup error for any field with
a non-empty operators aspect; a field whose aspect names only an unknown
token derives no operator entries, so the loop body never touches the missing
`query` key and `add_schema_field` succeeds. -/
theorem C10_unknown_token_counterexample :
    bogusOpF.hasOperators = true ∧
      (dictGet noQueryRes.requests "query").isSome = true ∧
      ((dictGet noQueryRes.requests "query").bind
        (fun rq => requestSchemaGet rq "query")) = none ∧
      isOk (add_schema_field noQueryRes bogusOpF) = true :=
  ⟨rfl, rfl, rfl, rfl⟩

/-- C2 amended: for every field named `n` whose operators aspect is the token
string "equal in null", `OperatorConstructor.construct` from an empty mapping
produces exactly the three entries `n`, `n ++ "__in"` and `n ++ "__null"`,
where `n ++ "__in"` is a non-null (but not required) sequence of clones of
the field and `n ++ "__null"` is a non-null (but not required) boolean. -/
theorem C2_operator_derivation (f : Field) (n : String)
    (hname : f.name = some n)
    (hops : f.operators = some (.str "equal in null")) :
    OperatorConstructor.construct [] f =
      [(n, clone_field f (some n) (some "Equals")),
       (n ++ "__in",
         Sequence (clone_field f none none) (some (n ++ "__in"))
           (some "In given values.") true false false),
       (n ++ "__null",
         Boolean (some (n ++ "__null")) (some "Is null.") true none)] ∧
      (Sequence (clone_field f none none) (some (n ++ "__in"))
        (some "In given values.") true false false).nonnull = true ∧
      (Sequence (clone_field f none none) (some (n ++ "__in"))
        (some "In given values.") true false false).required = false ∧
      (Boolean (some (n ++ "__null")) (some "Is null.") true none).nonnull =
        true ∧
      (Boolean (some (n ++ "__null")) (some "Is null.") true none).required =
        false := by
  refine ⟨?_, rfl, rfl, rfl, rfl⟩
  have h1 : ¬ (n ++ "__in" = n) := append_ne_self n "__in" (by decide)
  have h2 : ¬ (n ++ "__null" = n) := append_ne_self n "__null" (by decide)
  have h3 : ¬ (n ++ "__null" = n ++ "__in") :=
    append_ne_append n "__null" "__in" (by decide)
  have hsplit : splitSpaces "equal in null" = ["equal", "in", "null"] := by
    decide
  obtain ⟨nm, ds, a, t⟩ := f
  obtain ⟨nn, rq, df, idf, dfr, oc, op, ou, ro, ops, ret, srt, ign, nts⟩ := a
  replace hname : nm = some n := hname
  subst hname
  replace hops : ops = some (OpSpec.str "equal in null") := hops
  subst hops
  have hdEqual : dictGet OperatorConstructor.operators "equal" =
      some "Equals" := rfl
  have hdIn : dictGet OperatorConstructor.operators "in" =
      some "In given values." := rfl
  have hdNull : dictGet OperatorConstructor.operators "null" =
      some "Is null." := rfl
  simp only [OperatorConstructor.construct, Field.operators, Field.aspects,
    hsplit]
  simp +decide [dictSet, h1, h2, h3, hdEqual, hdIn, hdNull,
    OperatorConstructor.construct_equal_operator,
    OperatorConstructor.construct_in_operator,
    OperatorConstructor.construct_null_operator,
    keyOf, Field.name, clone_field, Field.clone, Sequence, Boolean]

/-- C2 witness: the amended derivation theorem evaluated at the concrete
field `c2f` named "x". -/
theorem C2_operator_derivation_witness :
    c2f.name = some "x" ∧
      c2f.operators = some (.str "equal in null") ∧
      OperatorConstructor.construct [] c2f =
        [("x", clone_field c2f (some "x") (some "Equals")),
         ("x" ++ "__in",
           Sequence (clone_field c2f none none) (some ("x" ++ "__in"))
             (some "In given values.") true false false),
         ("x" ++ "__null",
           Boolean (some ("x" ++ "__null")) (some "Is null.") true none)] :=
  ⟨rfl, rfl, (C2_operator_derivation c2f "x" rfl rfl).1⟩

/-- C6: the response-filtered schema used by get/query/load responses maps
each eligible field as follows: the identifier field (matched by name) is a
clone with `required=True`; every other field whose `required` attribute is
true is a clone with `required=False`; every other field passes through
unchanged. -/
theorem C6_response_filter (r : Resource) (n : String) (f : Field)
    (hnd : (r.schema.map Prod.fst).Nodup)
    (hf : dictGet r.schema n = some f) :
    dictGet (filter_schema_for_response r) n =
      some (if some n == r.id_field.name then f.clone { required := some true }
            else if f.required then f.clone { required := some false }
            else f) := by
  rw [filter_schema_for_response]
  exact foldIns_get_some _ (r.filter_schema true) n f _ hnd hf
    (by split_ifs <;> rfl) []

/-- C6 witness: response filtering evaluated on a concrete resource at its
identifier and at its required plain field. -/
theorem C6_response_filter_witness :
    (widgetFull.schema.map Prod.fst).Nodup ∧
      dictGet (filter_schema_for_response widgetFull) "id" =
        some (if some "id" == widgetFull.id_field.name then
                idF.clone { required := some true }
              else if idF.required then idF.clone { required := some false }
              else idF) ∧
      dictGet (filter_schema_for_response widgetFull) "name" =
        some (if some "name" == widgetFull.id_field.name then
                nameF.clone { required := some true }
              else if nameF.required then nameF.clone { required := some false }
              else nameF) :=
  ⟨by decide, C6_response_filter widgetFull "id" idF (by decide) rfl,
    C6_response_filter widgetFull "name" nameF (by decide) rfl⟩

/-- C9: with `support_returning=True` and a schema field literally named
`RETURNING`, each of the create, put and update constructors returns the
configuration-conflict error — the `Except` value is an error, so no
`Request` for that operation is ever produced — while with
`support_returning` false, or no declaration at all, all three constructors
succeed. -/
theorem C9_returning_conflict (r : Resource) (d : Declaration)
    (hr : (dictGet r.schema RETURNING).isSome = true) :
    (d.support_returning = true →
      isConfigError (construct_create_request r (some d)) = true ∧
        isConfigError (construct_put_request r (some d)) = true ∧
        isConfigError (construct_update_request r (some d)) = true) ∧
      (d.support_returning = false →
        isOk (construct_create_request r (some d)) = true ∧
          isOk (construct_put_request r (some d)) = true ∧
          isOk (construct_update_request r (some d)) = true) ∧
      isOk (construct_create_request r none) = true ∧
      isOk (construct_put_request r none) = true ∧
      isOk (construct_update_request r none) = true := by
  have hnone : is_returning_supported r none = .ok false := rfl
  refine ⟨?_, ?_, ?_, ?_, ?_⟩
  · intro hd
    have hsup : is_returning_supported r (some d) =
        .error (.configError "cannot support returning for this resource") := by
      simp [is_returning_supported, hd, hr]
    exact ⟨by simp [construct_create_request, hsup, isConfigError],
      by simp [construct_put_request, hsup, isConfigError],
      by simp [construct_update_request, hsup, isConfigError]⟩
  · intro hd
    have hsup : is_returning_supported r (some d) = .ok false := by
      simp [is_returning_supported, hd]
    exact ⟨by simp [construct_create_request, hsup, isOk],
      by simp [construct_put_request, hsup, isOk],
      by simp [construct_update_request, hsup, isOk]⟩
  · simp [construct_create_request, hnone, isOk]
  · simp [construct_put_request, hnone, isOk]
  · simp [construct_update_request, hnone, isOk]

/-- C9 witness: the conflict theorem evaluated on a concrete resource whose
schema has a field named "returning", with supporting, non-supporting and
absent declarations. -/
theorem C9_returning_conflict_witness :
    (dictGet retRes.schema RETURNING).isSome = true ∧
      isConfigError (construct_create_request retRes
        (some ⟨true, none, none⟩)) = true ∧
      isOk (construct_create_request retRes (some ⟨false, none, none⟩)) =
        true ∧
      isOk (construct_update_request retRes none) = true :=
  ⟨rfl, ((C9_returning_conflict retRes ⟨true, none, none⟩ rfl).1 rfl).1,
    ((C9_returning_conflict retRes ⟨false, none, none⟩ rfl).2.1 rfl).1,
    (C9_returning_conflict retRes ⟨true, none, none⟩ rfl).2.2.2.2⟩

/-- C7: a readonly field appears in none of the create, update or put input
schemas — at construction, because `filter_schema(readonly=False)` drops it
before any oncreate/onupdate/onput gate is consulted, and on incremental
addition, because `add_schema_field` returns before the mutation-request
inserts, leaving the create, update and put requests untouched. -/
theorem C7_readonly_never_writable (r : Resource) (d : Option Declaration)
    (n : String) (f : Field)
    (hnd : (r.schema.map Prod.fst).Nodup)
    (hf : dictGet r.schema n = some f) (hro : f.readonly = true) :
    (∀ req, construct_create_request r d = .ok req →
      requestSchemaGet req n = none) ∧
      (∀ req, construct_update_request r d = .ok req →
        requestSchemaGet req n = none) ∧
      (∀ req, construct_put_request r d = .ok req →
        requestSchemaGet req n = none) ∧
      (∀ (r₀ : Resource) (g : Field) (r' : Resource), g.readonly = true →
        add_schema_field r₀ g = .ok r' →
        dictGet r'.requests "create" = dictGet r₀.requests "create" ∧
          dictGet r'.requests "update" = dictGet r₀.requests "update" ∧
          dictGet r'.requests "put" = dictGet r₀.requests "put") := by
  refine ⟨?_, ?_, ?_, ?_⟩
  · intro req hok
    simp only [construct_create_request] at hok
    cases hsup : is_returning_supported r d with
    | error e => simp only [hsup] at hok; cases hok
    | ok support =>
      simp only [hsup] at hok
      injection hok with hok
      subst hok
      simp only [requestSchemaGet, Structure, structEntries, Field.ftype]
      exact readonly_input_lookup_none r d _ n f support hnd hf hro hsup
  · intro req hok
    simp only [construct_update_request] at hok
    cases hsup : is_returning_supported r d with
    | error e => simp only [hsup] at hok; cases hok
    | ok support =>
      simp only [hsup] at hok
      injection hok with hok
      subst hok
      simp only [requestSchemaGet, Structure, structEntries, Field.ftype]
      exact readonly_input_lookup_none r d _ n f support hnd hf hro hsup
  · intro req hok
    simp only [construct_put_request] at hok
    cases hsup : is_returning_supported r d with
    | error e => simp only [hsup] at hok; cases hok
    | ok support =>
      simp only [hsup] at hok
      injection hok with hok
      subst hok
      simp only [requestSchemaGet, Structure, structEntries, Field.ftype]
      exact readonly_input_lookup_none r d _ n f support hnd hf hro hsup
  · intro r₀ g r' hgro hok
    simp only [add_schema_field] at hok
    split at hok
    · cases hok
    · rename_i r1 hget
      split at hok
      · cases hok
      · rename_i r2 hquery
        rw [hgro] at hok
        simp only [if_pos] at hok
        injection hok with hok
        subst hok
        have e1 := modifyRequest_get_other _ "get" _ r1 hget
        have e2 := modifyRequest_get_other _ "query" _ r2 hquery
        refine ⟨?_, ?_, ?_⟩ <;> rw [e2 _ (by decide), e1 _ (by decide)]

/-- C7 witness: the readonly exclusion evaluated at a concrete resource with
readonly field "secret", for the construction path (create) and the
incremental path. -/
theorem C7_readonly_never_writable_witness :
    (c7res.schema.map Prod.fst).Nodup ∧
      dictGet c7res.schema "secret" = some secretF ∧
      secretF.readonly = true ∧
      construct_create_request c7res none = .ok c7createReq ∧
      requestSchemaGet c7createReq "secret" = none ∧
      add_schema_field widgetBaseWithGet secretF = .ok c7addRes ∧
      dictGet c7addRes.requests "create" =
        dictGet widgetBaseWithGet.requests "create" :=
  ⟨by decide, rfl, rfl, rfl,
    (C7_readonly_never_writable c7res none "secret" secretF (by decide) rfl
      rfl).1 c7createReq rfl,
    rfl,
    ((C7_readonly_never_writable c7res none "secret" secretF (by decide) rfl
      rfl).2.2.2 widgetBaseWithGet secretF c7addRes rfl rfl).1⟩

/-- C5 amended: the create request's input schema contains the identifier
field iff the identifier is non-readonly and its oncreate aspect is literally
`True` (a readonly identifier is dropped by `filter_schema(readonly=False)`
even with `oncreate=True`), in which case it is included as a clone with
`ignore_null` set; an identifier with oncreate unset or `False` is absent;
every non-identifier, non-readonly field is included unless its oncreate
aspect is literally `False`. -/
theorem C5_create_input_rule (r : Resource) (d : Option Declaration)
    (req : Request) (n : String) (f : Field)
    (hnd : (r.schema.map Prod.fst).Nodup)
    (hok : construct_create_request r d = .ok req)
    (hf : dictGet r.schema n = some f) :
    (f.is_identifier = true →
      requestSchemaGet req n =
        if f.readonly = false ∧ f.oncreate = some true then
          some (f.clone { ignore_null := some true })
        else none) ∧
      (f.is_identifier = false → f.readonly = false →
        requestSchemaGet req n =
          if f.oncreate = some false then none else some f) := by
  simp only [construct_create_request] at hok
  cases hsup : is_returning_supported r d with
  | error e => simp only [hsup] at hok; cases hok
  | ok support =>
    simp only [hsup] at hok
    injection hok with hok
    subst hok
    have hne : support = true → ¬ n = RETURNING := by
      intro hs he
      rw [hs] at hsup
      rw [he, is_returning_supported_ok_true r d hsup] at hf
      cases hf
    simp only [requestSchemaGet, Structure, structEntries, Field.ftype]
    rw [input_lookup_through_returning r _ support n hne]
    constructor
    · intro hid
      by_cases hro : f.readonly = true
      · rw [foldIns_filter_readonly_none r _ n f hnd hf hro]
        simp [hro]
      · replace hro : f.readonly = false := by
          cases hx : f.readonly
          · rfl
          · exact absurd hx hro
        have hkeep := dictGet_filter_schema_false_keep r n f hnd hf hro
        have hfnd := filter_schema_false_nodup r hnd
        by_cases hoc : f.oncreate = some true
        · rw [foldIns_get_some _ (r.filter_schema false) n f
            (f.clone { ignore_null := some true }) hfnd hkeep
            (by simp [hid, hoc]) []]
          simp [hro, hoc]
        · rw [foldIns_get_none _ (r.filter_schema false) n f hfnd hkeep
            (by simp [hid, hoc]) []]
          simp [hoc]
          rfl
    · intro hid hro
      have hkeep := dictGet_filter_schema_false_keep r n f hnd hf hro
      have hfnd := filter_schema_false_nodup r hnd
      by_cases hoc : f.oncreate = some false
      · rw [foldIns_get_none _ (r.filter_schema false) n f hfnd hkeep
          (by simp [hid, hoc]) []]
        simp [hoc]
        rfl
      · rw [foldIns_get_some _ (r.filter_schema false) n f f hfnd hkeep
          (by simp [hid, hoc]) []]
        simp [hoc]

/-- C5 witness: the create input rule evaluated at a concrete resource with
a creatable non-readonly identifier and a required plain field. -/
theorem C5_create_input_rule_witness :
    (c5res.schema.map Prod.fst).Nodup ∧
      construct_create_request c5res none = .ok c5req ∧
      requestSchemaGet c5req "id" =
        (if okIdF.readonly = false ∧ okIdF.oncreate = some true then
          some (okIdF.clone { ignore_null := some true })
        else none) ∧
      requestSchemaGet c5req "name" =
        (if nameF.oncreate = some false then none else some nameF) :=
  ⟨by decide, rfl,
    (C5_create_input_rule c5res none c5req "id" okIdF (by decide) rfl rfl).1
      rfl,
    (C5_create_input_rule c5res none c5req "name" nameF (by decide) rfl
      rfl).2 rfl rfl⟩

/-- C8: every field included in the update request's input schema has
`required = false` — the constructor re-clones required fields (and the
returning selector and pass-through fields are unrequired already), and a
field added later via `add_schema_field` enters the update input as a
`required=False` clone, preserving the property. -/
theorem C8_update_inputs_optional (r : Resource) (d : Option Declaration) :
    (∀ req, construct_update_request r d = .ok req →
      ∀ n g, requestSchemaGet req n = some g → g.required = false) ∧
      (∀ (r₀ : Resource) (f : Field) (r' : Resource),
        add_schema_field r₀ f = .ok r' →
        (∀ rq, dictGet r₀.requests "update" = some rq →
          ∀ n g, requestSchemaGet rq n = some g → g.required = false) →
        ∀ rq, dictGet r'.requests "update" = some rq →
          ∀ n g, requestSchemaGet rq n = some g → g.required = false) := by
  constructor
  · intro req hok n g hg
    simp only [construct_update_request] at hok
    cases hsup : is_returning_supported r d with
    | error e => simp only [hsup] at hok; cases hok
    | ok support =>
      simp only [hsup] at hok
      injection hok with hok
      subst hok
      simp only [requestSchemaGet, Structure, structEntries, Field.ftype] at hg
      exact update_input_fold_required r support n g hg
  · intro r₀ f r' hok hbefore rq hrq n g hg
    simp only [add_schema_field] at hok
    split at hok
    · cases hok
    · rename_i r1 hget
      split at hok
      · cases hok
      · rename_i r2 hquery
        have h1 := modifyRequest_get_other _ "get" _ r1 hget "update"
          (by decide)
        have h2 := modifyRequest_get_other _ "query" _ r2 hquery "update"
          (by decide)
        have hchain : dictGet r2.requests "update" =
            dictGet r₀.requests "update" := by rw [h2, h1]
        by_cases hro : f.readonly = true
        · rw [hro] at hok
          simp only [if_pos] at hok
          injection hok with hok
          subst hok
          exact hbefore rq (by rw [← hchain]; exact hrq) n g hg
        · have hrof : f.readonly = false := by
            cases hx : f.readonly
            · rfl
            · exact absurd hx hro
          rw [hrof] at hok
          simp at hok
          rcases add_to_mutation_requests_update r2 f r' hok
            with heq | ⟨rq0, rq0', hq0, hins, hget'⟩
          · exact hbefore rq (by rw [← hchain, ← heq]; exact hrq) n g hg
          · rw [hget'] at hrq
            injection hrq with hrq
            subst hrq
            exact requestSchemaInsert_values rq0 _ false rq0' hins
              (clone_required f _ false rfl)
              (hbefore rq0 (by rw [← hchain]; exact hq0)) n g hg

/-- C8 witness: the update-optional rule evaluated on a concrete resource at
the required field "name", whose entry in the update input is the
`required=False` clone. -/
theorem C8_update_inputs_optional_witness :
    construct_update_request c8res none = .ok c8req ∧
      requestSchemaGet c8req "name" =
        some (nameF.clone { required := some false }) ∧
      (nameF.clone { required := some false }).required = false :=
  ⟨rfl, rfl,
    (C8_update_inputs_optional c8res none).1 c8req rfl "name"
      (nameF.clone { required := some false }) rfl⟩

/-- C10 amended: for a resource whose query request's input schema has no
`query` sub-structure, calling `add_schema_field` with a field whose
operators aspect actually derives at least one operator entry fails with a
lookup error on the missing `query` key instead of creating the filter
structure (a non-empty aspect that derives nothing — only unknown tokens —
does not fail).  The hypotheses name the successful preceding steps: the
get-branch patch and the query branch's response-insert and selector
updates, which do not touch the `query` key. -/
theorem C10_missing_query_structure (r : Resource) (f : Field) (qr : Request)
    (r1 : Resource) (qr2 : Request)
    (hq : dictGet r.requests "query" = some qr)
    (hnoquery : requestSchemaGet qr "query" = none)
    (hops : f.hasOperators = true)
    (hderive : (OperatorConstructor.construct [] f).isEmpty = false)
    (hget : modifyRequest
        { r with schema := dictSet r.schema (keyOf f) f } "get"
        (fun req => add_to_get_request
          { r with schema := dictSet r.schema (keyOf f) f }.id_field req f) =
      .ok r1)
    (hpre : ((match insert_query_response_field qr f with
      | .error e => .error e
      | .ok q1 => update_selectors r1.id_field q1 f :
      Except SchemaError Request)) = .ok qr2) :
    add_schema_field r f = .error (.keyError "query") := by
  cases hresp : insert_query_response_field qr f with
  | error e => simp only [hresp] at hpre; cases hpre
  | ok q1 =>
    simp only [hresp] at hpre
    have hq1none : requestSchemaGet q1 "query" = none := by
      rw [requestSchemaGet_congr qr q1
        (insert_query_response_field_schema qr f q1 hresp) "query"]
      exact hnoquery
    have hqr2none : requestSchemaGet qr2 "query" = none := by
      rw [update_selectors_get_other r1.id_field q1 f qr2 "query" hpre
        (by decide) (by decide) (by decide)]
      exact hq1none
    have hioq : insert_query_operators qr2 f = .error (.keyError "query") := by
      simp [insert_query_operators, hops, hderive, hqr2none]
    have hquery' : add_to_query_request r1.id_field qr f =
        .error (.keyError "query") := by
      simp only [add_to_query_request, hresp, hpre, hioq]
    have hq1' : dictGet r1.requests "query" = some qr := by
      rw [modifyRequest_get_other _ "get" _ r1 hget "query" (by decide)]
      exact hq
    have hmrq : modifyRequest r1 "query"
        (fun req => add_to_query_request r1.id_field req f) =
        .error (.keyError "query") := by
      simp only [modifyRequest.eq_def, hq1', hquery']
    simp only [add_schema_field, hget, hmrq]

/-- C10 witness: the amended lookup-error theorem evaluated at the concrete
resource without a `query` filter structure and a field deriving an `equal`
operator. -/
theorem C10_missing_query_structure_witness :
    dictGet noQueryRes.requests "query" = some c10qr ∧
      requestSchemaGet c10qr "query" = none ∧
      equalOpF.hasOperators = true ∧
      (OperatorConstructor.construct [] equalOpF).isEmpty = false ∧
      add_schema_field noQueryRes equalOpF = .error (.keyError "query") :=
  ⟨rfl, rfl, rfl, rfl,
    C10_missing_query_structure noQueryRes equalOpF c10qr c10r1 c10qr2
      rfl rfl rfl rfl rfl rfl⟩

end Mesh
